import Mathlib

/-!
Verification development for the opencode-atlassian task orchestration CLI.

Shallow embedding of:
- the Task data model and the SQLite-backed task store (src/services/Database.ts),
- the per-issue processing of the poller (processJiraIssue in src/commands/list.ts),
- the task saga (TaskWorkflowLayer in src/workflows/TaskWorkflow.ts),
- the ADF document-to-text converter (adfToText),
- the OpenCode agent polling loop (runTask in src/services/OpenCodeClient.ts),
- the polling scheduler (startHandler / pollCycle),
- the list subcommand display logic (listHandler).

Timestamps are modelled as Nat ticks supplied by the caller (CURRENT_TIMESTAMP);
Effect values are modelled by explicit state passing, with typed failure modes
as explicit Bool/Except parameters.
-/

namespace OpencodeAtlassian

/-- Task status enum, from src/schema/Task.ts (`TaskStatus`). -/
inductive TaskStatus where
  | WAITING_TO_WORK
  | IN_PROGRESS
  | DONE
  | FAILED
deriving DecidableEq, Repr

/-- A row of the `tasks` table, from src/schema/Task.ts (`Task`) and the
`CREATE TABLE` statement in src/services/Database.ts. -/
structure Task where
  id : Nat
  jiraId : String
  jiraKey : String
  jiraStatus : String
  status : TaskStatus
  data : String
  createdAt : Nat
  updatedAt : Nat
deriving DecidableEq, Repr

/-- Insert payload, from src/schema/Task.ts (`TaskInsert`). -/
structure TaskInsert where
  jiraId : String
  jiraKey : String
  jiraStatus : String
  status : TaskStatus
  data : String
deriving DecidableEq, Repr

/-- The SQLite `tasks` table: rows in insertion order plus the
AUTOINCREMENT counter. -/
structure TaskStore where
  nextId : Nat
  rows : List Task
deriving DecidableEq, Repr

/-- A task is "active" when its status is WAITING_TO_WORK or IN_PROGRESS
(the `status IN (WAITING_TO_WORK, IN_PROGRESS)` clause of
FIND_ACTIVE_BY_JIRA_ID_SQL, and ACTIVE_STATUSES in src/schema/Task.ts). -/
def isActive (s : TaskStatus) : Bool :=
  s == .WAITING_TO_WORK || s == .IN_PROGRESS

/-- Rows matching jira_id = ? with status in the active set. -/
def activeTasksFor (store : TaskStore) (jid : String) : List Task :=
  store.rows.filter (fun t => t.jiraId == jid && isActive t.status)

/-- `ORDER BY created_at DESC LIMIT 1`: the element with maximal createdAt
(later row wins ties). -/
def latestByCreatedAt : List Task → Option Task
  | [] => none
  | t :: ts =>
    match latestByCreatedAt ts with
    | none => some t
    | some u => if u.createdAt ≥ t.createdAt then some u else some t

/-- `findActiveByJiraId` from src/services/Database.ts:
FIND_ACTIVE_BY_JIRA_ID_SQL run with `.get` (first row or none). -/
def findActiveByJiraId (store : TaskStore) (jid : String) : Option Task :=
  latestByCreatedAt (activeTasksFor store jid)

/-- `insert` from src/services/Database.ts: INSERT_TASK_SQL with RETURNING.
SQLite assigns the autoincrement id and CURRENT_TIMESTAMP timestamps. -/
def TaskStore.insertTask (store : TaskStore) (ti : TaskInsert) (now : Nat) :
    Task × TaskStore :=
  let t : Task :=
    { id := store.nextId
      jiraId := ti.jiraId
      jiraKey := ti.jiraKey
      jiraStatus := ti.jiraStatus
      status := ti.status
      data := ti.data
      createdAt := now
      updatedAt := now }
  (t, { nextId := store.nextId + 1, rows := store.rows ++ [t] })

/-- `updateStatus` from src/services/Database.ts: UPDATE_STATUS_SQL, i.e.
`UPDATE tasks SET status = ?, updated_at = CURRENT_TIMESTAMP WHERE id = ?`. -/
def TaskStore.updateStatus (store : TaskStore) (id : Nat) (st : TaskStatus)
    (now : Nat) : TaskStore :=
  { store with
    rows := store.rows.map (fun t =>
      if t.id == id then { t with status := st, updatedAt := now } else t) }

/-- `findByStatus` from src/services/Database.ts: FIND_BY_STATUS_SQL
(`WHERE status = ? ORDER BY created_at ASC`); createdAt is nondecreasing in
insertion order, so this is a plain filter. -/
def TaskStore.findByStatus (store : TaskStore) (st : TaskStatus) : List Task :=
  store.rows.filter (fun t => t.status == st)

/-- `findAll` from src/services/Database.ts: FIND_ALL_SQL
(`SELECT * FROM tasks ORDER BY created_at DESC`). Note: it takes NO limit
parameter. With strictly increasing createdAt this is the reverse of
insertion order. -/
def TaskStore.findAll (store : TaskStore) : List Task :=
  store.rows.reverse

/-- The fields of a Jira issue that the poller reads, from
src/schema/JiraIssue.ts (id, key, fields.status.name). -/
structure JiraIssue where
  id : String
  key : String
  statusName : String
deriving DecidableEq, Repr

/-- Models `JSON.stringify(issue)` (a JavaScript builtin, not repository
code): an injective serialization of the issue into a string. -/
def JiraIssue.serialize (i : JiraIssue) : String :=
  String.intercalate "\u0000" [i.id, i.key, i.statusName]

/-- `processJiraIssue` from src/commands/list.ts: consult
`findActiveByJiraId(issue.id)`; if an active task exists, skip with no
mutation; otherwise insert a new WAITING_TO_WORK task whose `data` is the
serialized issue and return it. -/
def processJiraIssue (store : TaskStore) (issue : JiraIssue) (now : Nat) :
    Option Task × TaskStore :=
  match findActiveByJiraId store issue.id with
  | some _ => (none, store)
  | none =>
    let ti : TaskInsert :=
      { jiraId := issue.id
        jiraKey := issue.key
        jiraStatus := issue.statusName
        status := .WAITING_TO_WORK
        data := issue.serialize }
    let r := store.insertTask ti now
    (some r.1, r.2)

/-- Invariant I1: for each external id, at most one active task exists. -/
def InvariantI1 (store : TaskStore) : Prop :=
  ∀ jid : String, (activeTasksFor store jid).length ≤ 1

/-! ### Task saga (TaskWorkflowLayer in src/workflows/TaskWorkflow.ts)

The saga body is a sequence of activities. Success or failure of each external call is an environment parameter; `db.updateStatus` is `Effect.sync` in
the source (no typed error channel), so the status writes themselves do not
fail inside the saga model. -/

/-- Outcomes of the external calls made by one saga execution. -/
structure SagaEnv where
  cloneOk : Bool
  /-- whether a failed `git clone` leaves a partial directory behind -/
  cloneFailLeavesDir : Bool
  checkoutOk : Bool
  commentsOk : Bool
  agentOk : Bool
  transitionOk : Bool
  prUrlOk : Bool
  addCommentOk : Bool
deriving DecidableEq, Repr

/-- Observable saga state: the sequence of `updateStatus` writes issued for
the task id, whether the working directory currently exists, and the
finalize side effects. -/
structure SagaState where
  statusWrites : List TaskStatus
  dirExists : Bool
  transitionAttempts : Nat
  commentPosted : Bool
deriving DecidableEq, Repr

/-- Initial saga state: no writes yet, no working directory. -/
def sagaInit : SagaState :=
  { statusWrites := [], dirExists := false, transitionAttempts := 0,
    commentPosted := false }

/-- Activity "UpdateStatusToInProgress": `db.updateStatus(taskId, "IN_PROGRESS")`.
`Effect.sync`, cannot fail in its typed channel. -/
def activityInProgress (s : SagaState) : SagaState :=
  { s with statusWrites := s.statusWrites ++ [.IN_PROGRESS] }

/-- Activity "CloneRepository": remove any stale directory, `git clone`,
verify the directory exists, `git checkout -b`. Returns the state plus the
failing phase, if any. -/
def activityClone (env : SagaEnv) (s : SagaState) : SagaState × Option String :=
  let s1 : SagaState := { s with dirExists := false }
  if env.cloneOk then
    let s2 : SagaState := { s1 with dirExists := true }
    if s2.dirExists then
      if env.checkoutOk then (s2, none)
      else (s2, some "checkout")
    else (s2, some "clone-verify")
  else
    ({ s1 with dirExists := env.cloneFailLeavesDir }, some "clone")

/-- The compensation registered on "CloneRepository" with
`TaskWorkflow.withCompensation`: remove the working directory. In
@effect/workflow a compensation receives the success value of the activity, so it
runs only when the activity succeeded and the workflow failed later. -/
def cloneCompensation (s : SagaState) : SagaState :=
  { s with dirExists := false }

/-- The `Effect.tapErrorCause` handler wrapping the whole saga body: on any
failure, write FAILED for the task (best effort, `Effect.ignore`). -/
def sagaFailHandler (s : SagaState) : SagaState :=
  { s with statusWrites := s.statusWrites ++ [.FAILED] }

/-- Activity "UpdateStatusToDone" (finalize): attempt the Jira transition to
"Code Review" (failure logged and ignored); attempt to build the Bitbucket
PR URL and post it as a comment (failure of the pair logged and ignored);
then `db.updateStatus(taskId, "DONE")`, which is NOT wrapped in any ignore;
then remove the working directory (ignored failure). `doneWriteOk` models
whether the underlying store write itself succeeds: when it fails the
exception escapes the activity uncaught, so the activity fails and the
trailing cleanup does not run. Returns the state and whether the activity
succeeded. -/
def finalizeActivity (env : SagaEnv) (doneWriteOk : Bool) (s : SagaState) :
    SagaState × Bool :=
  let s1 : SagaState := { s with transitionAttempts := s.transitionAttempts + 1 }
  let s2 : SagaState :=
    { s1 with commentPosted := s1.commentPosted || (env.prUrlOk && env.addCommentOk) }
  if doneWriteOk then
    ({ s2 with statusWrites := s2.statusWrites ++ [.DONE], dirExists := false },
      true)
  else (s2, false)

/-- One full execution of the TaskWorkflow saga body under environment
`env`, mirroring TaskWorkflowLayer: activity 1 (IN_PROGRESS write), activity
2 (clone, with its compensation registered on success), activity 3 (fetch
comments), prompt building (pure), activity 4 (agent run), activity 5
(finalize). Any activity failure propagates: registered compensations run,
then the tapErrorCause handler writes FAILED. The store write in finalize is
`Effect.sync` and is run with `doneWriteOk := true`, matching its typed
channel. -/
def runSaga (env : SagaEnv) : SagaState :=
  let s1 := activityInProgress sagaInit
  match activityClone env s1 with
  | (s2, some _) =>
    -- CloneRepository itself failed: it never succeeded, so its
    -- compensation is not registered and does not run.
    sagaFailHandler s2
  | (s2, none) =>
    if env.commentsOk then
      if env.agentOk then
        (finalizeActivity env true s2).1
      else
        -- RunOpenCode failed: compensation from CloneRepository runs.
        sagaFailHandler (cloneCompensation s2)
    else
      -- FetchJiraComments failed: compensation from CloneRepository runs.
      sagaFailHandler (cloneCompensation s2)

/-- One legal step of the status chain
WAITING_TO_WORK → IN_PROGRESS → {DONE, FAILED}. -/
def chainStep : TaskStatus → TaskStatus → Bool
  | .WAITING_TO_WORK, .IN_PROGRESS => true
  | .IN_PROGRESS, .DONE => true
  | .IN_PROGRESS, .FAILED => true
  | _, _ => false

/-- A write trace follows the chain from the given current status; DONE and
FAILED admit no further writes. -/
def chainOk : TaskStatus → List TaskStatus → Bool
  | _, [] => true
  | cur, w :: ws => chainStep cur w && chainOk w ws

/-! ### ADF document-to-text conversion (adfToText in TaskWorkflow.ts) -/

/-- A JSON object node as `adfToText` reads it: optional `type` string,
optional `text` string, optional `content` array. -/
inductive Adf where
  | mk (type : Option String) (text : Option String)
      (content : Option (List Adf))

/-- The type field of the node. -/
def Adf.typeOf : Adf → Option String
  | .mk ty _ _ => ty

mutual
/-- `extractText` inside `adfToText`: a node of type "text" with a truthy
(non-empty) `text` yields that text; otherwise the concatenation of its
content, if any; otherwise the empty string. -/
def extractText : Adf → String
  | .mk ty tx ct =>
    if ty == some "text" && !(tx.getD "").isEmpty then tx.getD ""
    else
      match ct with
      | some l => extractTextList l
      | none => ""
/-- `content.map(extractText).join("")`. -/
def extractTextList : List Adf → String
  | [] => ""
  | a :: rest => extractText a ++ extractTextList rest
end

/-- How `adfToText` renders one top-level block: the extracted text, with a
newline appended when the type of the block is paragraph, heading, bulletList or
orderedList. -/
def renderBlock (block : Adf) : String :=
  let text := extractText block
  if block.typeOf == some "paragraph" || block.typeOf == some "heading" then
    text ++ "\n"
  else if block.typeOf == some "bulletList" || block.typeOf == some "orderedList" then
    text ++ "\n"
  else text

/-- Whitespace as stripped by the JavaScript trim builtin (the characters
relevant here: space, tab, newline, carriage return, form feed, vertical
tab). -/
def isJsWhitespace (c : Char) : Bool :=
  c == ' ' || c == '\t' || c == '\n' || c == '\r' ||
    c == '\u000b' || c == '\u000c'

/-- Models the JavaScript String.prototype.trim builtin (not repository
code): strip leading and trailing whitespace. -/
def trimString (s : String) : String :=
  let cs := s.toList.dropWhile isJsWhitespace
  String.mk ((cs.reverse.dropWhile isJsWhitespace).reverse)

/-- `adfToText`: empty for a non-object or a document without a `content`
array; otherwise the rendered blocks joined with "\n" and trimmed. `none`
models a value that is not an object (or is null). -/
def adfToText : Option Adf → String
  | none => ""
  | some (.mk _ _ none) => ""
  | some (.mk _ _ (some content)) =>
    trimString (String.intercalate "\n" (content.map renderBlock))

/-- The document of the example in the spec: a paragraph containing text "Hello"
followed by a heading containing text "World". -/
def helloWorldDoc : Option Adf :=
  some (.mk (some "doc") none (some
    [ .mk (some "paragraph") none (some [.mk (some "text") (some "Hello") none])
    , .mk (some "heading") none (some [.mk (some "text") (some "World") none]) ]))

/-! ### Agent polling loop (runTask in src/services/OpenCodeClient.ts) -/

/-- The session-status map returned by the status endpoint of the agent:
session id to status type. -/
abbrev StatusMap := List (String × String)

/-- One response of `client.session.status`: a transport/API failure, or a
status map. -/
inductive PollResponse where
  | respErr
  | respOk (statuses : StatusMap)
deriving DecidableEq, Repr

/-- `statuses[session.id]`. -/
def lookupStatus (m : StatusMap) (sid : String) : Option String :=
  (m.find? (fun p => p.1 == sid)).map (fun p => p.2)

/-- `pollStatus`: fails on a status-endpoint error; a map missing the
session id is treated as idle ("Session not found in status - assume
idle"); a present status succeeds only when it is "idle", otherwise fails
("Session still ...") to trigger a retry. -/
def pollOnce (sid : String) (r : PollResponse) : Except String Unit :=
  match r with
  | .respErr => .error "Failed to get session status"
  | .respOk m =>
    match lookupStatus m sid with
    | none => .ok ()
    | some t => if t == "idle" then .ok () else .error ("Session still " ++ t)

/-- Whether an Except is a success. -/
def exceptOk : Except String Unit → Bool
  | .ok _ => true
  | .error _ => false

/-- MAX_POLL_DURATION / POLL_INTERVAL = 30 minutes / 2 seconds: the number
of retries the spaced schedule admits after the first attempt. -/
def maxPollRetries : Nat := 900

/-- `pollStatus.pipe(Effect.retry(schedule))`: attempt poll `i`; on failure
retry with the next response while the schedule has budget. Returns whether
some attempt observed idle. -/
def retryPoll (sid : String) (responses : Nat → PollResponse) :
    Nat → Nat → Bool
  | i, 0 =>
    exceptOk (pollOnce sid (responses i))
  | i, fuel + 1 =>
    match pollOnce sid (responses i) with
    | .ok _ => true
    | .error _ => retryPoll sid responses (i + 1) fuel

/-- The single final status check in the `catchAll` handler: succeeds only
when the endpoint responds and the status of the session is literally present
and "idle" (`finalStatus?.type === "idle"`); a missing entry or an endpoint
failure re-raises the error. -/
def finalCheck (sid : String) (r : PollResponse) : Bool :=
  match r with
  | .respErr => false
  | .respOk m =>
    match lookupStatus m sid with
    | some t => t == "idle"
    | none => false

/-- Result of the completion-wait portion of `runTask`. -/
structure PollingResult where
  completed : Bool
  finalChecks : Nat
deriving DecidableEq, Repr

/-- The completion-wait portion of `runTask`: retry the poll on the spaced,
bounded schedule; if no attempt observes idle, perform exactly one final
status check; the invocation completes iff some poll attempt or the final
check observes idle. -/
def runTaskPolling (sid : String) (responses : Nat → PollResponse)
    (finalResp : PollResponse) : PollingResult :=
  if retryPoll sid responses 0 maxPollRetries then
    { completed := true, finalChecks := 0 }
  else if finalCheck sid finalResp then
    { completed := true, finalChecks := 1 }
  else
    { completed := false, finalChecks := 1 }

/-! ### Polling scheduler (startHandler / pollCycle in src/commands/list.ts) -/

/-- Outcome of one poll cycle: success, or a JiraClientError raised while
fetching from the tracker. -/
inductive CycleResult where
  | success
  | trackerError (msg : String)
deriving DecidableEq, Repr

/-- Events observable from the polling loop. -/
inductive PollEvent where
  | cycleStart (i : Nat)
  | cycleDone (i : Nat)
  | cycleErrorLogged (i : Nat) (msg : String)
deriving DecidableEq, Repr

/-- One execution of `pollCycle(taskQueue).pipe(Effect.catchAll(log))`: the
cycle runs to completion or its tracker error is caught and logged; either
way the wrapped effect succeeds. -/
def runCycle (i : Nat) (r : CycleResult) : List PollEvent :=
  match r with
  | .success => [.cycleStart i, .cycleDone i]
  | .trackerError m => [.cycleStart i, .cycleErrorLogged i m]

/-- `Effect.repeat(Schedule.spaced(interval))` applied to the caught cycle:
cycles run strictly one after another; because the repeated effect never
fails (errors are caught inside), the schedule always continues. `n` is the
number of cycles observed. -/
def pollerLoopFrom (results : Nat → CycleResult) : Nat → Nat → List PollEvent
  | _, 0 => []
  | i, n + 1 => runCycle i (results i) ++ pollerLoopFrom results (i + 1) n

/-- The event trace of the first `n` poll cycles. -/
def pollerLoop (results : Nat → CycleResult) (n : Nat) : List PollEvent :=
  pollerLoopFrom results 0 n

/-- Is this event the start of a cycle? -/
def isCycleStart : PollEvent → Bool
  | .cycleStart _ => true
  | _ => false

/-- Is this event a completion (success or logged failure) of cycle `i`? -/
def isCompletionOf (i : Nat) : PollEvent → Bool
  | .cycleDone j => j == i
  | .cycleErrorLogged j _ => j == i
  | .cycleStart _ => false

/-- Checks that a trace is a sequence of non-overlapping cycles `i, i+1, …`:
the start of each cycle is immediately followed by the completion of that cycle
before the next cycle starts. -/
def seqCheck : Nat → List PollEvent → Bool
  | _, [] => true
  | i, .cycleStart j :: rest =>
    j == i &&
      (match rest with
       | e :: rest2 => isCompletionOf i e && seqCheck (i + 1) rest2
       | [] => false)
  | _, _ => false

/-! ### List subcommand display (listHandler in src/commands/list.ts) -/

/-- The tasks the list subcommand displays: with a status filter, the
filtered tasks sliced to `limit`; without one, the result of `findAll`
(which takes no limit parameter) with no slice applied. Mirrors the two
conditionals of `listHandler`. -/
def listDisplayedTasks (store : TaskStore) (statusFilter : Option TaskStatus)
    (limit : Nat) : List Task :=
  let tasks : List Task :=
    match statusFilter with
    | some st => store.findByStatus st
    | none => store.findAll
  match statusFilter with
  | some _ => tasks.take limit
  | none => tasks

/-- A two-row store used as a concrete counterexample input. -/
def twoTaskStore : TaskStore :=
  { nextId := 3
    rows :=
      [ { id := 1, jiraId := "10001", jiraKey := "PROJ-1",
          jiraStatus := "To Do", status := .DONE, data := "d1",
          createdAt := 1, updatedAt := 5 }
      , { id := 2, jiraId := "10002", jiraKey := "PROJ-2",
          jiraStatus := "To Do", status := .FAILED, data := "d2",
          createdAt := 2, updatedAt := 6 } ] }

/-- A saga environment where workspace preparation itself fails at the
branch-checkout phase (after a successful clone), all else succeeding. -/
def checkoutFailEnv : SagaEnv :=
  { cloneOk := true, cloneFailLeavesDir := false, checkoutOk := false,
    commentsOk := true, agentOk := true, transitionOk := true,
    prUrlOk := true, addCommentOk := true }

/-- A concrete issue used by witnesses. -/
def demoIssue : JiraIssue :=
  { id := "10042", key := "PROJ-42", statusName := "To Do" }

/-! ## Helper lemmas -/

/-- The SQL query with LIMIT 1 returns a row whenever a matching row exists. -/
theorem latestByCreatedAt_ne_none (t : Task) (ts : List Task) :
    latestByCreatedAt (t :: ts) ≠ none := by
  simp only [latestByCreatedAt]
  cases latestByCreatedAt ts with
  | none => simp
  | some u =>
    split
    · simp
    · split <;> simp

/-- `findActiveByJiraId` returns none exactly when no active task with that
external id exists. -/
theorem findActive_eq_none_iff (store : TaskStore) (jid : String) :
    findActiveByJiraId store jid = none ↔ activeTasksFor store jid = [] := by
  unfold findActiveByJiraId
  cases h : activeTasksFor store jid with
  | nil => simp [latestByCreatedAt]
  | cons t ts => simp [latestByCreatedAt_ne_none t ts]

/-- The bounded retry loop observes idle exactly when some attempt within
the schedule budget observes idle. -/
theorem retryPoll_eq_range_any (sid : String) (rs : Nat → PollResponse) :
    ∀ (fuel i : Nat),
      retryPoll sid rs i fuel =
        ((List.range (fuel + 1)).any fun k => exceptOk (pollOnce sid (rs (i + k)))) := by
  intro fuel
  induction fuel with
  | zero =>
    intro i
    simp [retryPoll, List.range_succ]
  | succ n ih =>
    intro i
    rw [retryPoll]
    cases h : pollOnce sid (rs i) with
    | ok v =>
      symm
      rw [List.any_eq_true]
      refine ⟨0, List.mem_range.mpr (by omega), ?_⟩
      simp [h, exceptOk]
    | error e =>
      rw [ih (i + 1)]
      conv_rhs => rw [List.range_succ_eq_map, List.any_cons, List.any_map]
      have h0 : exceptOk (pollOnce sid (rs (i + 0))) = false := by
        simp [h, exceptOk]
      simp only [h0, Bool.false_or, Function.comp]
      congr 1
      funext k
      have hk : i + 1 + k = i + Nat.succ k := by omega
      rw [hk]
      rfl

/-- Every trace of cycles starting at index i is sequential. -/
theorem pollerLoopFrom_seqCheck (results : Nat → CycleResult) :
    ∀ (n i : Nat), seqCheck i (pollerLoopFrom results i n) = true := by
  intro n
  induction n with
  | zero => intro i; rfl
  | succ m ih =>
    intro i
    cases h : results i with
    | success =>
      simp [pollerLoopFrom, runCycle, h, seqCheck, isCompletionOf, ih (i + 1)]
    | trackerError msg =>
      simp [pollerLoopFrom, runCycle, h, seqCheck, isCompletionOf, ih (i + 1)]

/-- A trace of n cycles contains exactly n cycle starts. -/
theorem pollerLoopFrom_startCount (results : Nat → CycleResult) :
    ∀ (n i : Nat),
      ((pollerLoopFrom results i n).filter isCycleStart).length = n := by
  intro n
  induction n with
  | zero => intro i; rfl
  | succ m ih =>
    intro i
    cases h : results i with
    | success =>
      simp [pollerLoopFrom, runCycle, h, isCycleStart, ih (i + 1)]
    | trackerError msg =>
      simp [pollerLoopFrom, runCycle, h, isCycleStart, ih (i + 1)]

/-! ## Claim theorems -/

/-- Claim C1: for every polled issue, the per-item processing first consults
findActive on the external id of the issue; when an active task exists it
performs no store mutation, and otherwise it inserts exactly one new
WAITING_TO_WORK task whose snapshot is the serialized issue — so the
at-most-one-active-task-per-externalId invariant I1 is preserved. -/
theorem poller_dedup (store : TaskStore) (issue : JiraIssue) (now : Nat)
    (hInv : InvariantI1 store) :
    ((findActiveByJiraId store issue.id).isSome →
        processJiraIssue store issue now = (none, store)) ∧
    (findActiveByJiraId store issue.id = none →
        processJiraIssue store issue now =
          (some
            { id := store.nextId, jiraId := issue.id, jiraKey := issue.key,
              jiraStatus := issue.statusName, status := .WAITING_TO_WORK,
              data := issue.serialize, createdAt := now, updatedAt := now },
           { nextId := store.nextId + 1
             rows := store.rows ++
               [{ id := store.nextId, jiraId := issue.id, jiraKey := issue.key,
                  jiraStatus := issue.statusName, status := .WAITING_TO_WORK,
                  data := issue.serialize, createdAt := now, updatedAt := now }] })) ∧
    InvariantI1 (processJiraIssue store issue now).2 := by
  refine ⟨?_, ?_, ?_⟩
  · intro h
    cases hf : findActiveByJiraId store issue.id with
    | some t => simp [processJiraIssue, hf]
    | none => rw [hf] at h; simp at h
  · intro hf
    simp [processJiraIssue, hf, TaskStore.insertTask]
  · cases hf : findActiveByJiraId store issue.id with
    | some t =>
      simpa [processJiraIssue, hf] using hInv
    | none =>
      have hempty : activeTasksFor store issue.id = [] :=
        (findActive_eq_none_iff store issue.id).mp hf
      intro jid
      simp only [processJiraIssue, hf, TaskStore.insertTask]
      simp only [activeTasksFor, List.filter_append] at *
      by_cases hjid : issue.id = jid
      · subst hjid
        rw [hempty]
        simp [isActive]
      · have hbeq : ((issue.id : String) == jid) = false := by
          exact beq_eq_false_iff_ne.mpr hjid
        simpa [hbeq] using hInv jid

/-- Witness for C1 at the empty store and a concrete issue. -/
theorem poller_dedup_witness :
    InvariantI1 { nextId := 1, rows := [] } ∧
    InvariantI1 (processJiraIssue { nextId := 1, rows := [] } demoIssue 7).2 := by
  have hInv : InvariantI1 { nextId := 1, rows := [] } := by
    intro jid; simp [activeTasksFor]
  exact ⟨hInv, (poller_dedup { nextId := 1, rows := [] } demoIssue 7 hInv).2.2⟩

/-- Claim C2: the status writes issued by one saga execution move only along
the chain WAITING_TO_WORK → IN_PROGRESS → {DONE, FAILED}, and no write
follows a DONE or FAILED write. -/
theorem saga_status_chain (env : SagaEnv) :
    chainOk .WAITING_TO_WORK (runSaga env).statusWrites = true := by
  obtain ⟨c, lv, k, cm, a, t, p, ad⟩ := env
  cases c <;> cases k <;> cases cm <;> cases a <;> rfl

/-- Counterexample to claim C3: when workspace preparation itself fails at
the checkout phase, the working directory is NOT removed (the registered
compensation runs only after the CloneRepository activity has succeeded),
although the task does end FAILED. -/
theorem saga_step2_failure_dir_persists :
    (runSaga checkoutFailEnv).dirExists = true ∧
    (runSaga checkoutFailEnv).statusWrites = [.IN_PROGRESS, .FAILED] :=
  ⟨rfl, rfl⟩

/-- Claim C3 (amended): a saga failure after workspace preparation succeeded
(context gathering or agent invocation) removes the working directory via
the registered compensation and ends FAILED; a failure of workspace
preparation itself also ends FAILED but does not run the compensation, so
the directory persists exactly when the checkout phase failed after a
successful clone, or the failed clone left a partial directory. -/
theorem saga_compensation (env : SagaEnv) :
    (runSaga env).statusWrites =
      [.IN_PROGRESS,
        if env.cloneOk && env.checkoutOk && env.commentsOk && env.agentOk
        then TaskStatus.DONE else TaskStatus.FAILED] ∧
    (runSaga env).dirExists =
      ((env.cloneOk && !env.checkoutOk) ||
        (!env.cloneOk && env.cloneFailLeavesDir)) := by
  obtain ⟨c, lv, k, cm, a, t, p, ad⟩ := env
  cases c <;> cases k <;> cases cm <;> cases a <;> exact ⟨rfl, rfl⟩

/-- Claim C4: in the finalize activity, failures of the tracker transition
and of the PR-URL comment are swallowed — for every combination of their
outcomes the activity still attempts the transition, performs the DONE
write and succeeds — while a failure of the DONE store write itself fails
the activity. -/
theorem finalize_done_write_not_swallowed (env : SagaEnv) (doneWriteOk : Bool)
    (s : SagaState) :
    (finalizeActivity env doneWriteOk s).2 = doneWriteOk ∧
    (finalizeActivity env doneWriteOk s).1.statusWrites =
      s.statusWrites ++ (if doneWriteOk then [TaskStatus.DONE] else []) ∧
    (finalizeActivity env doneWriteOk s).1.transitionAttempts =
      s.transitionAttempts + 1 := by
  cases doneWriteOk <;> simp [finalizeActivity]

/-- Counterexample to claim C5: on the paragraph-Hello / heading-World
document the conversion does not return the single-newline string
"Hello\nWorld". -/
theorem adfToText_hello_world_ne_spec :
    adfToText helloWorldDoc ≠ "Hello\nWorld" := by decide

/-- Claim C5 (amended): the conversion concatenates text nodes depth-first
and terminates each block-level node with a newline, but top-level blocks
are additionally joined with a newline and the result is trimmed, so the
paragraph-Hello / heading-World document renders as "Hello\n\nWorld" (a
blank line between the blocks). -/
theorem adfToText_hello_world :
    adfToText helloWorldDoc = "Hello\n\nWorld" := by decide

/-- Claim C6: the agent invocation polls the session status for a bounded
number of spaced attempts; it performs exactly one additional final status
check when no poll attempt observed idle and none otherwise, and it
completes successfully exactly when some bounded poll attempt or the final
check observes idle. -/
theorem runTask_polling_characterization (sid : String)
    (responses : Nat → PollResponse) (finalResp : PollResponse) :
    ((runTaskPolling sid responses finalResp).completed =
      (((List.range (maxPollRetries + 1)).any fun k =>
          exceptOk (pollOnce sid (responses k))) || finalCheck sid finalResp)) ∧
    ((runTaskPolling sid responses finalResp).finalChecks =
      if ((List.range (maxPollRetries + 1)).any fun k =>
            exceptOk (pollOnce sid (responses k)))
      then 0 else 1) := by
  have h := retryPoll_eq_range_any sid responses maxPollRetries 0
  simp only [Nat.zero_add] at h
  unfold runTaskPolling
  rw [h]
  cases hany : ((List.range (maxPollRetries + 1)).any fun k =>
      exceptOk (pollOnce sid (responses k))) with
  | true => simp [hany]
  | false =>
    cases hfin : finalCheck sid finalResp with
    | true => simp [hany, hfin]
    | false => simp [hany, hfin]

/-- Claim C7: poll cycles never overlap — the trace of n cycles is
sequential, each cycle completing (success or logged tracker error) before
the next starts — and a tracker error is logged and does not terminate the
loop: all n cycles start regardless of individual failures. -/
theorem poller_no_overlap_and_continues (results : Nat → CycleResult)
    (n : Nat) :
    seqCheck 0 (pollerLoop results n) = true ∧
    ((pollerLoop results n).filter isCycleStart).length = n :=
  ⟨pollerLoopFrom_seqCheck results n 0, pollerLoopFrom_startCount results n 0⟩

/-- Claim C8: updateStatus is a frame-preserving single-row update: every
row keeps its id, external id and key, external status, snapshot and
created-at; a row whose id differs also keeps its status and updated-at
(it is fully unchanged), and the matching row gets exactly the new status
and the refreshed updated-at. -/
theorem updateStatus_frame (store : TaskStore) (id : Nat) (st : TaskStatus)
    (now : Nat) :
    List.Forall₂ (fun r r2 : Task =>
        r2.id = r.id ∧ r2.jiraId = r.jiraId ∧ r2.jiraKey = r.jiraKey ∧
        r2.jiraStatus = r.jiraStatus ∧ r2.data = r.data ∧
        r2.createdAt = r.createdAt ∧
        r2.status = (if r.id = id then st else r.status) ∧
        r2.updatedAt = (if r.id = id then now else r.updatedAt))
      store.rows (store.updateStatus id st now).rows := by
  unfold TaskStore.updateStatus
  induction store.rows with
  | nil => exact List.Forall₂.nil
  | cons r rest ih =>
    simp only [List.map_cons]
    refine List.Forall₂.cons ?_ ih
    by_cases h : r.id = id
    · simp [h]
    · simp [h]

/-- Claim C9 evaluated at a failing input: with two stored tasks, no status
filter and limit 1, the list subcommand displays 2 rows — more than the
limit — while the status-filtered path does respect the limit. -/
theorem listHandler_unfiltered_ignores_limit :
    1 < (listDisplayedTasks twoTaskStore none 1).length ∧
    (listDisplayedTasks twoTaskStore (some .DONE) 1).length ≤ 1 := by decide

/-- Claim C10: when the status endpoint responds successfully but its map
does not contain the created session id, the poll treats the session as
idle, so the invocation immediately completes successfully without any
final status check. -/
theorem missing_session_assumed_idle (sid : String) (m : StatusMap)
    (finalResp : PollResponse) (h : lookupStatus m sid = none) :
    pollOnce sid (.respOk m) = Except.ok () ∧
    (runTaskPolling sid (fun _ => .respOk m) finalResp).completed = true ∧
    (runTaskPolling sid (fun _ => .respOk m) finalResp).finalChecks = 0 := by
  have hp : pollOnce sid (.respOk m) = Except.ok () := by
    simp [pollOnce, h]
  have hr : retryPoll sid (fun _ => .respOk m) 0 maxPollRetries = true := by
    rw [retryPoll_eq_range_any]
    rw [List.any_eq_true]
    exact ⟨0, List.mem_range.mpr (by omega), by simp [hp, exceptOk]⟩
  exact ⟨hp, by simp [runTaskPolling, hr], by simp [runTaskPolling, hr]⟩

/-- Witness for C10 at a concrete session id and status map. -/
theorem missing_session_assumed_idle_witness :
    lookupStatus [("other", "busy")] "sess" = none ∧
    (runTaskPolling "sess" (fun _ => .respOk [("other", "busy")])
        .respErr).completed = true := by
  have h : lookupStatus [("other", "busy")] "sess" = none := by decide
  exact ⟨h,
    (missing_session_assumed_idle "sess" [("other", "busy")] .respErr h).2.1⟩

end OpencodeAtlassian
